import Mathlib

/-!
Verification of the `fsm` finite-state-machine engine (`fsm.go`).

The Go source is shallowly embedded below:

* `State` wraps a string identity (the `State`/`NewState` helpers used by
  `fsm.go` live outside the surveyed file; the spec pins them down).
* `Transition` models Go interface values used as map keys: Go compares
  interface keys by dynamic type plus value, so a value of the concrete
  struct `T` is a distinct key from any other implementation with equal
  origin/exit identities.  The `other` constructor stands for every non-`T`
  implementation, tagged by its dynamic type name.
* `Guard` is `func(start, goal State) error`; an error is its message string.
* `Ruleset` is the map `map[Transition][]Guard`, embedded as an association
  list with map semantics (lookup by key equality, in-place update).
* `Permitted` evaluates the matched guards concurrently and consumes results
  from a channel in arrival order.  Arrival order is nondeterministic, so the
  embedding takes the arrival sequence as an explicit argument; theorems
  quantify over every arrival sequence that is a permutation of the guard
  results.  `firstError` models the collection loop that returns at the first
  non-nil result.
* `Machine.Transition` dereferences the `Rules` pointer; a nil pointer makes
  the call crash, embedded as the `none` result of `TransitionWith`.
-/

namespace Fsm

/-- Modelled from the spec: `State` (and its constructor `NewState`) is not in
the surveyed source file; per the spec it wraps a string-like identity value,
two States are equal iff their identity values are equal, and it exposes only
the identity accessor `ID`. -/
structure State where
  id : String
deriving DecidableEq, Repr

/-- Modelled from the spec: construction from a raw identity value is the sole
way to create a `State`. -/
def NewState (s : String) : State := ⟨s⟩

/-- Modelled from the spec: the identity accessor of a `State`. -/
def State.ID (s : State) : String := s.id

/-- `errTransitionFormat`: the message produced by the default guard. -/
def errTransitionFormat (s g : String) : String :=
  "Cannot transition from " ++ s ++ " to " ++ g

/-- A Go `Transition` interface value used as a map key.  `T o e` is the
concrete struct `T{O: o, E: e}` from the source; `other tag o e` is a value of
any other implementation (dynamic type named `tag`) whose `Origin`/`Exit`
identities are `o` and `e`.  Equality is Go interface-value equality: same
dynamic type and equal payload. -/
inductive Transition where
  | T (O E : String)
  | other (tag : String) (O E : String)
deriving DecidableEq, Repr

/-- `Origin` returns the starting state. -/
def Transition.Origin : Transition → State
  | .T o _ => NewState o
  | .other _ o _ => NewState o

/-- `Exit` returns the ending state. -/
def Transition.Exit : Transition → State
  | .T _ e => NewState e
  | .other _ _ e => NewState e

/-- `Guard` is `func(start State, goal State) error`; `none` is a nil error,
`some msg` an error whose `Error()` text is `msg`. -/
abbrev Guard : Type := State → State → Option String

/-- `Ruleset` is `map[Transition][]Guard`, embedded as an association list
with map semantics. -/
abbrev Ruleset : Type := List (Transition × List Guard)

/-- Map read `r[t]` (present case): find the guard list stored at key `t`. -/
def Ruleset.lookup (r : Ruleset) (t : Transition) : Option (List Guard) :=
  match r with
  | [] => none
  | (k, gs) :: rest => if k = t then some gs else Ruleset.lookup rest t

/-- Map write `r[t] = gs`: replace the entry at key `t`, or add it. -/
def Ruleset.setGuards (r : Ruleset) (t : Transition) (gs : List Guard) : Ruleset :=
  match r with
  | [] => [(t, gs)]
  | (k, v) :: rest =>
      if k = t then (t, gs) :: rest else (k, v) :: Ruleset.setGuards rest t gs

/-- One iteration of `AddRule`'s loop: `r[t] = append(r[t], guard)` (a missing
key reads as the empty list). -/
def Ruleset.appendGuard (r : Ruleset) (t : Transition) (g : Guard) : Ruleset :=
  r.setGuards t (((r.lookup t).getD []) ++ [g])

/-- `AddRule` appends each of the given guards to the transition's guard
list. -/
def Ruleset.AddRule (r : Ruleset) (t : Transition) (guards : List Guard) : Ruleset :=
  guards.foldl (fun acc g => acc.appendGuard t g) r

/-- The default guard installed by `AddTransition`: fails with the
`errTransitionFormat` message unless `start`'s identity equals the
transition's own origin identity. -/
def defaultGuard (t : Transition) : Guard :=
  fun start goal =>
    if start.ID ≠ t.Origin.ID then some (errTransitionFormat start.ID goal.ID)
    else none

/-- `AddTransition` adds a transition with the single default guard. -/
def Ruleset.AddTransition (r : Ruleset) (t : Transition) : Ruleset :=
  r.AddRule t [defaultGuard t]

/-- `CreateRuleset` builds a fresh ruleset and calls `AddTransition` for each
supplied transition. -/
def CreateRuleset (transitions : List Transition) : Ruleset :=
  transitions.foldl (fun r t => r.AddTransition t) []

/-- The errors `Permitted` can produce: the structural `errNoRulesFormat`
rejection and the `errGuardFailedFormat` wrapper around a failing guard's
message. -/
inductive PermErr where
  | noRules (s g : String)
  | guardFailed (s g reason : String)
deriving DecidableEq, Repr

/-- The `Error()` text of a `Permitted` error, from the format constants of
the source. -/
def PermErr.message : PermErr → String
  | .noRules s g => "No rules found for " ++ s ++ " to " ++ g
  | .guardFailed s g reason =>
      "Guard failed from " ++ s ++ " to " ++ g ++ ": " ++ reason

/-- The collection loop of `Permitted`: consume results in arrival order and
stop at the first non-nil error.  Returns that error, or `none` when every
result is nil. -/
def firstError : List (Option String) → Option String
  | [] => none
  | none :: rest => firstError rest
  | some e :: _ => some e

/-- The results the launched guard goroutines publish, in registration
order: each guard is invoked with the same `(start, goal)` pair. -/
def guardResults (gs : List Guard) (start goal : State) : List (Option String) :=
  gs.map (fun g => g start goal)

/-- `Permitted` with an explicit arrival order for the guard results.  The
lookup key is always the concrete struct `T{start.ID(), goal.ID()}`.  A
missing entry is the structural `noRules` rejection; otherwise the first
non-nil arrived result is wrapped as a `guardFailed` error, and the check
succeeds when all results are nil. -/
def Ruleset.PermittedWith (r : Ruleset) (start goal : State)
    (arrival : List (Option String)) : Option PermErr :=
  match r.lookup (Transition.T start.ID goal.ID) with
  | some _ =>
      match firstError arrival with
      | some e => some (.guardFailed start.ID goal.ID e)
      | none => none
  | none => some (.noRules start.ID goal.ID)

/-- An arrival order is admissible when it is a permutation of the guard
results for the matched entry (channel delivery reorders completions but
neither loses nor invents results). -/
def admissibleArrival (r : Ruleset) (start goal : State)
    (arrival : List (Option String)) : Prop :=
  arrival.Perm
    (guardResults ((r.lookup (Transition.T start.ID goal.ID)).getD []) start goal)

/-- `Permitted` under the in-registration-order arrival schedule (one
admissible schedule; with at most one guard per entry it is the only one). -/
def Ruleset.Permitted (r : Ruleset) (start goal : State) : Option PermErr :=
  r.PermittedWith start goal
    (guardResults ((r.lookup (Transition.T start.ID goal.ID)).getD []) start goal)

/-- `Machine` pairs a `*Ruleset` (nil pointer embedded as `none`) with a
current `State`. -/
structure Machine where
  Rules : Option Ruleset
  State : State

/-- `Machine.Transition` with an explicit arrival order.  A nil `Rules`
pointer crashes the call (result `none`); otherwise the machine delegates to
`Permitted`, overwrites its state on success, and returns the permission
error unchanged on failure. -/
def Machine.TransitionWith (m : Machine) (goal : Fsm.State)
    (arrival : List (Option String)) : Option (Machine × Option PermErr) :=
  match m.Rules with
  | none => none
  | some r =>
      match r.PermittedWith m.State goal arrival with
      | none => some ({ m with State := goal }, none)
      | some e => some (m, some e)

/-- `Machine.Transition` under the in-registration-order arrival schedule. -/
def Machine.TransitionRun (m : Machine) (goal : Fsm.State) :
    Option (Machine × Option PermErr) :=
  match m.Rules with
  | none => none
  | some r =>
      match r.Permitted m.State goal with
      | none => some ({ m with State := goal }, none)
      | some e => some (m, some e)

/-- `New` initializes a machine from option functions, starting from the zero
value (nil rules pointer, zero-identity state). -/
def New (opts : List (Machine → Machine)) : Machine :=
  opts.foldl (fun m opt => opt m) { Rules := none, State := NewState "" }

end Fsm

namespace Fsm

@[simp]
theorem NewState_ID (s : String) : (NewState s).ID = s := rfl

theorem firstError_eq_none_iff (l : List (Option String)) :
    firstError l = none ↔ ∀ x ∈ l, x = none := by
  induction l with
  | nil => simp [firstError]
  | cons a t ih =>
    cases a with
    | none => simp [firstError, ih]
    | some e => simp [firstError]

theorem firstError_mem {l : List (Option String)} {e : String}
    (h : firstError l = some e) : some e ∈ l := by
  induction l with
  | nil => simp [firstError] at h
  | cons a t ih =>
    cases a with
    | none =>
      simp only [firstError] at h
      exact List.mem_cons_of_mem _ (ih h)
    | some b =>
      simp only [firstError, Option.some.injEq] at h
      subst h
      exact List.mem_cons_self _ _

theorem lookup_setGuards_self (r : Ruleset) (t : Transition) (gs : List Guard) :
    (r.setGuards t gs).lookup t = some gs := by
  induction r with
  | nil => simp [Ruleset.setGuards, Ruleset.lookup]
  | cons p rest ih =>
    obtain ⟨k, v⟩ := p
    by_cases hk : k = t
    · simp [Ruleset.setGuards, hk, Ruleset.lookup]
    · simp [Ruleset.setGuards, hk, Ruleset.lookup, ih]

theorem lookup_appendGuard_self (r : Ruleset) (t : Transition) (g : Guard) :
    (r.appendGuard t g).lookup t = some (((r.lookup t).getD []) ++ [g]) :=
  lookup_setGuards_self r t _

theorem lookup_not_T_keys (start goal : Fsm.State) (r2 : Ruleset)
    (hall2 : ∀ k gsk, (k, gsk) ∈ r2 → ∀ o2 e2, k ≠ Transition.T o2 e2) :
    r2.lookup (Transition.T start.ID goal.ID) = none := by
  induction r2 with
  | nil => rfl
  | cons p rest ih =>
    obtain ⟨k, v⟩ := p
    have hk : k ≠ Transition.T start.ID goal.ID :=
      hall2 k v (List.mem_cons_self _ _) _ _
    simp only [Ruleset.lookup, if_neg hk]
    exact ih (fun k2 g2 hm => hall2 k2 g2 (List.mem_cons_of_mem _ hm))

theorem foldl_opts_rules (opts : List (Machine → Machine)) (m0 : Machine)
    (hopts : ∀ f ∈ opts, ∀ mm : Machine, (f mm).Rules = mm.Rules) :
    (opts.foldl (fun m opt => opt m) m0).Rules = m0.Rules := by
  induction opts generalizing m0 with
  | nil => rfl
  | cons f rest ih =>
    have h1 : (f m0).Rules = m0.Rules := hopts f (List.mem_cons_self _ _) m0
    rw [List.foldl_cons,
      ih _ (fun g hg mm => hopts g (List.mem_cons_of_mem _ hg) mm), h1]

end Fsm

namespace Fsm

/-- A ruleset with the single transition `T{"a","b"}` registered through
`AddTransition`, used to instantiate the general theorems. -/
def abRuleset : Ruleset := CreateRuleset [Transition.T "a" "b"]

/-- C1: with a non-nil ruleset, `Machine.Transition` overwrites the state with
the goal and returns nil exactly when `Permitted` returns nil; when `Permitted`
returns an error, the state is left unchanged and that exact error value is
returned with no additional wrapping; no other path changes the state. -/
theorem machine_transition_spec (m : Machine) (r : Ruleset) (goal : Fsm.State)
    (arrival : List (Option String)) (h : m.Rules = some r) :
    (r.PermittedWith m.State goal arrival = none →
      m.TransitionWith goal arrival = some ({ m with State := goal }, none)) ∧
    (∀ e, r.PermittedWith m.State goal arrival = some e →
      m.TransitionWith goal arrival = some (m, some e)) ∧
    (∀ m2 res, m.TransitionWith goal arrival = some (m2, res) →
      (res = none ↔ r.PermittedWith m.State goal arrival = none)) := by
  refine ⟨fun hp => ?_, fun e hp => ?_, fun m2 res hmr => ?_⟩
  · simp [Machine.TransitionWith, h, hp]
  · simp [Machine.TransitionWith, h, hp]
  · cases hp : r.PermittedWith m.State goal arrival with
    | none =>
      simp only [Machine.TransitionWith, h, hp] at hmr
      simp only [Option.some.injEq, Prod.mk.injEq] at hmr
      obtain ⟨-, h2⟩ := hmr
      subst h2
      simp [hp]
    | some e =>
      simp only [Machine.TransitionWith, h, hp] at hmr
      simp only [Option.some.injEq, Prod.mk.injEq] at hmr
      obtain ⟨-, h2⟩ := hmr
      subst h2
      simp [hp]

/-- Witness for C1 at a concrete machine over `abRuleset`. -/
theorem machine_transition_spec_witness :
    (abRuleset.PermittedWith (NewState "a") (NewState "b") [none] = none →
      Machine.TransitionWith ⟨some abRuleset, NewState "a"⟩ (NewState "b") [none] =
        some (⟨some abRuleset, NewState "b"⟩, none)) ∧
    (∀ e, abRuleset.PermittedWith (NewState "a") (NewState "b") [none] = some e →
      Machine.TransitionWith ⟨some abRuleset, NewState "a"⟩ (NewState "b") [none] =
        some (⟨some abRuleset, NewState "a"⟩, some e)) ∧
    (∀ m2 res,
      Machine.TransitionWith ⟨some abRuleset, NewState "a"⟩ (NewState "b") [none] =
        some (m2, res) →
      (res = none ↔
        abRuleset.PermittedWith (NewState "a") (NewState "b") [none] = none)) :=
  machine_transition_spec ⟨some abRuleset, NewState "a"⟩ abRuleset (NewState "b")
    [none] rfl

/-- A guard that rejects every attempt with the reason `"boom"`. -/
def boomGuard : Guard := fun _ _ => some "boom"

/-- A ruleset whose only entry, for `T{"a","b"}`, carries `boomGuard`. -/
def abFailRuleset : Ruleset :=
  Ruleset.AddRule [] (Transition.T "a" "b") [boomGuard]

/-- C2: for a matched entry with a nonempty guard list, under every admissible
arrival order: if every guard returns nil the check returns nil regardless of
the list length; if some guard fails at the attempt, the check returns a
guard-failure error whose message contains the failing guard's reason text. -/
theorem permitted_guard_outcomes (r : Ruleset) (start goal : Fsm.State)
    (gs : List Guard) (arrival : List (Option String))
    (hlook : r.lookup (Transition.T start.ID goal.ID) = some gs)
    (hne : gs ≠ [])
    (hperm : arrival.Perm (guardResults gs start goal)) :
    ((∀ g ∈ gs, g start goal = none) →
      r.PermittedWith start goal arrival = none) ∧
    ((∃ g ∈ gs, g start goal ≠ none) →
      ∃ reason, ∃ g2 ∈ gs, g2 start goal = some reason ∧
        r.PermittedWith start goal arrival =
          some (PermErr.guardFailed start.ID goal.ID reason) ∧
        ∃ pre post, (PermErr.guardFailed start.ID goal.ID reason).message =
          pre ++ reason ++ post) := by
  constructor
  · intro hall
    have harr : ∀ x ∈ arrival, x = none := by
      intro x hx
      obtain ⟨g, hg, hgx⟩ := List.mem_map.mp (hperm.mem_iff.mp hx)
      rw [← hgx]
      exact hall g hg
    simp [Ruleset.PermittedWith, hlook,
      (firstError_eq_none_iff arrival).mpr harr]
  · rintro ⟨g, hg, hgne⟩
    have hmem : g start goal ∈ arrival :=
      hperm.mem_iff.mpr (List.mem_map.mpr ⟨g, hg, rfl⟩)
    have hfe : firstError arrival ≠ none := fun hfe =>
      hgne (((firstError_eq_none_iff arrival).mp hfe) _ hmem)
    obtain ⟨e, he⟩ := Option.ne_none_iff_exists.mp hfe
    obtain ⟨g2, hg2, hg2e⟩ :=
      List.mem_map.mp (hperm.mem_iff.mp (firstError_mem he.symm))
    refine ⟨e, g2, hg2, hg2e, ?_, ?_⟩
    · simp [Ruleset.PermittedWith, hlook, ← he]
    · exact ⟨"Guard failed from " ++ start.ID ++ " to " ++ goal.ID ++ ": ", "",
        by rw [String.append_empty]; rfl⟩

/-- Witness for C2 on the one-guard ruleset `abFailRuleset`. -/
theorem permitted_guard_outcomes_witness :
    ((∀ g ∈ [boomGuard], g (NewState "a") (NewState "b") = none) →
      abFailRuleset.PermittedWith (NewState "a") (NewState "b") [some "boom"] =
        none) ∧
    ((∃ g ∈ [boomGuard], g (NewState "a") (NewState "b") ≠ none) →
      ∃ reason, ∃ g2 ∈ [boomGuard], g2 (NewState "a") (NewState "b") = some reason ∧
        abFailRuleset.PermittedWith (NewState "a") (NewState "b") [some "boom"] =
          some (PermErr.guardFailed "a" "b" reason) ∧
        ∃ pre post, (PermErr.guardFailed "a" "b" reason).message =
          pre ++ reason ++ post) :=
  permitted_guard_outcomes abFailRuleset (NewState "a") (NewState "b") [boomGuard]
    [some "boom"] rfl (by simp) (List.Perm.refl _)

/-- C3: when no entry matches the synthesized key `T{start.ID(), goal.ID()}`,
`Permitted` returns the structural no-rules error mentioning start and goal,
never a guard-failure error, and the result does not depend on any guard
outcome (no guard result is consumed). -/
theorem permitted_no_rules (r : Ruleset) (start goal : Fsm.State)
    (arrival : List (Option String))
    (h : r.lookup (Transition.T start.ID goal.ID) = none) :
    r.PermittedWith start goal arrival =
      some (PermErr.noRules start.ID goal.ID) ∧
    (∀ s2 g2 reason,
      r.PermittedWith start goal arrival ≠
        some (PermErr.guardFailed s2 g2 reason)) ∧
    (∀ arrival2, r.PermittedWith start goal arrival2 =
      r.PermittedWith start goal arrival) ∧
    (∃ pre mid post, (PermErr.noRules start.ID goal.ID).message =
      pre ++ start.ID ++ mid ++ goal.ID ++ post) := by
  have hmain : ∀ arrival2 : List (Option String),
      r.PermittedWith start goal arrival2 =
        some (PermErr.noRules start.ID goal.ID) := by
    intro arrival2
    simp [Ruleset.PermittedWith, h]
  refine ⟨hmain arrival, ?_,
    fun arrival2 => (hmain arrival2).trans (hmain arrival).symm, ?_⟩
  · intro s2 g2 reason hcontra
    rw [hmain arrival] at hcontra
    exact PermErr.noConfusion (Option.some.inj hcontra)
  · exact ⟨"No rules found for ", " to ", "", by rw [String.append_empty]; rfl⟩

/-- Witness for C3: `abRuleset` has no rule for the reversed pair (b, a). -/
theorem permitted_no_rules_witness :
    (abRuleset.PermittedWith (NewState "b") (NewState "a") [] =
      some (PermErr.noRules "b" "a")) ∧
    (∀ s2 g2 reason,
      abRuleset.PermittedWith (NewState "b") (NewState "a") [] ≠
        some (PermErr.guardFailed s2 g2 reason)) ∧
    (∀ arrival2, abRuleset.PermittedWith (NewState "b") (NewState "a") arrival2 =
      abRuleset.PermittedWith (NewState "b") (NewState "a") []) ∧
    (∃ pre mid post, (PermErr.noRules "b" "a").message =
      pre ++ "b" ++ mid ++ "a" ++ post) :=
  permitted_no_rules abRuleset (NewState "b") (NewState "a") [] rfl

end Fsm

namespace Fsm

/-- C4 counterexample: in the ruleset built by `AddTransition` for
`T{"a","b"}`, attempting the transition from the non-origin state `"c"` to
`"b"` is rejected with the structural no-rules error, not with a guard-failure
error as the claim states: the lookup key `T{"c","b"}` has no entry, so the
default guard never runs. -/
theorem addTransition_origin_mismatch_counterexample :
    abRuleset.Permitted (NewState "c") (NewState "b") =
      some (PermErr.noRules "c" "b") ∧
    ¬ ∃ s2 g2 reason,
      abRuleset.Permitted (NewState "c") (NewState "b") =
        some (PermErr.guardFailed s2 g2 reason) := by
  have hval : abRuleset.Permitted (NewState "c") (NewState "b") =
      some (PermErr.noRules "c" "b") := rfl
  refine ⟨hval, ?_⟩
  rintro ⟨s2, g2, reason, hcontra⟩
  rw [hval] at hcontra
  exact PermErr.noConfusion (Option.some.inj hcontra)

/-- C4 (amended): for a transition `T{o,e}` whose entry carries exactly the
default guard installed by `AddTransition`, `Permitted(State(o), State(e))`
succeeds under every admissible arrival order; and for any `x ≠ o` with no
rule registered under the key `T{x,e}`, `Permitted(State(x), State(e))` fails
with the structural no-rules error (not a guard-failure error). -/
theorem addTransition_permits_own_origin (r : Ruleset) (o e x : String)
    (arrival arrival2 : List (Option String))
    (h1 : r.lookup (Transition.T o e) = some [defaultGuard (Transition.T o e)])
    (hperm : arrival.Perm
      (guardResults [defaultGuard (Transition.T o e)] (NewState o) (NewState e)))
    (hx : x ≠ o)
    (h2 : r.lookup (Transition.T x e) = none) :
    r.PermittedWith (NewState o) (NewState e) arrival = none ∧
    r.PermittedWith (NewState x) (NewState e) arrival2 =
      some (PermErr.noRules x e) := by
  constructor
  · have hres : guardResults [defaultGuard (Transition.T o e)]
        (NewState o) (NewState e) = [none] := by
      simp [guardResults, defaultGuard, Transition.Origin]
    rw [hres] at hperm
    have harr : arrival = [none] := List.perm_singleton.mp hperm
    subst harr
    simp [Ruleset.PermittedWith, h1, firstError]
  · simp [Ruleset.PermittedWith, h2]

/-- Witness for the amended C4 on `abRuleset` with `x = "c"`. -/
theorem addTransition_permits_own_origin_witness :
    abRuleset.PermittedWith (NewState "a") (NewState "b") [none] = none ∧
    abRuleset.PermittedWith (NewState "c") (NewState "b") [] =
      some (PermErr.noRules "c" "b") :=
  addTransition_permits_own_origin abRuleset "a" "b" "c" [none] [] rfl
    (List.Perm.refl _) (by decide) rfl

/-- C5: `AddTransition` registers exactly one guard for the transition (its
entry becomes the previous guard list plus the single default guard), and that
default guard fails with the `errTransitionFormat` error exactly when the
start identity differs from the transition's origin identity — the goal is
never inspected, so any goal passes whenever the start identity matches. -/
theorem addTransition_registers_one_guard (r : Ruleset) (t : Transition)
    (start goal start2 goal2 : Fsm.State)
    (hmatch : start.ID = t.Origin.ID) (hmis : start2.ID ≠ t.Origin.ID) :
    (r.AddTransition t).lookup t =
      some (((r.lookup t).getD []) ++ [defaultGuard t]) ∧
    defaultGuard t start goal = none ∧
    defaultGuard t start2 goal2 =
      some (errTransitionFormat start2.ID goal2.ID) := by
  refine ⟨lookup_appendGuard_self r t _, ?_, ?_⟩
  · simp [defaultGuard, hmatch]
  · simp [defaultGuard, hmis]

/-- Witness for C5: the default guard of `T{"a","b"}` accepts start `"a"`
even toward the unrelated goal `"z"`, and rejects start `"c"`. -/
theorem addTransition_registers_one_guard_witness :
    (Ruleset.AddTransition [] (Transition.T "a" "b")).lookup
        (Transition.T "a" "b") =
      some ((((Ruleset.lookup [] (Transition.T "a" "b")).getD []) ++
        [defaultGuard (Transition.T "a" "b")])) ∧
    defaultGuard (Transition.T "a" "b") (NewState "a") (NewState "z") = none ∧
    defaultGuard (Transition.T "a" "b") (NewState "c") (NewState "b") =
      some (errTransitionFormat "c" "b") :=
  addTransition_registers_one_guard [] (Transition.T "a" "b")
    (NewState "a") (NewState "z") (NewState "c") (NewState "b") rfl (by decide)

/-- The two-transition demo ruleset of the spec's concrete scenario. -/
def demoRuleset : Ruleset :=
  CreateRuleset [Transition.T "idle" "running", Transition.T "running" "done"]

/-- C6: over `CreateRuleset(T{"idle","running"}, T{"running","done"})` and a
machine starting at `"idle"`: transitioning to `"running"` succeeds and moves
the state to `"running"`; then to `"done"` succeeds and moves the state to
`"done"`; then attempting `"idle"` returns the structural no-rules error and
leaves the state `"done"`. -/
theorem scenario_idle_running_done :
    Machine.TransitionRun ⟨some demoRuleset, NewState "idle"⟩ (NewState "running") =
      some (⟨some demoRuleset, NewState "running"⟩, none) ∧
    Machine.TransitionRun ⟨some demoRuleset, NewState "running"⟩ (NewState "done") =
      some (⟨some demoRuleset, NewState "done"⟩, none) ∧
    Machine.TransitionRun ⟨some demoRuleset, NewState "done"⟩ (NewState "idle") =
      some (⟨some demoRuleset, NewState "done"⟩,
        some (PermErr.noRules "done" "idle")) :=
  ⟨rfl, rfl, rfl⟩

end Fsm

namespace Fsm

/-- C8: `Permitted` always looks up the concrete key `T{start.ID(),
goal.ID()}`.  In a ruleset whose rules are all keyed by non-`T` transition
implementations — including one whose origin and exit identities equal the
attempted start and goal — the lookup finds nothing and `Permitted` returns
the structural no-rules error without consuming any guard result. -/
theorem non_T_keys_unreachable (r : Ruleset) (tag : String) (gs0 : List Guard)
    (start goal : Fsm.State) (arrival : List (Option String))
    (hmem : (Transition.other tag start.ID goal.ID, gs0) ∈ r)
    (hall : ∀ k gsk, (k, gsk) ∈ r → ∀ o2 e2, k ≠ Transition.T o2 e2) :
    (Transition.other tag start.ID goal.ID).Origin = start ∧
    (Transition.other tag start.ID goal.ID).Exit = goal ∧
    r.PermittedWith start goal arrival =
      some (PermErr.noRules start.ID goal.ID) := by
  refine ⟨rfl, rfl, ?_⟩
  simp [Ruleset.PermittedWith, lookup_not_T_keys start goal r hall]

/-- Witness for C8: a singleton ruleset keyed by a non-`T` implementation of
the pair (a, b) rejects the attempt from `"a"` to `"b"` structurally. -/
theorem non_T_keys_unreachable_witness :
    (Transition.other "myTransition" "a" "b").Origin = NewState "a" ∧
    (Transition.other "myTransition" "a" "b").Exit = NewState "b" ∧
    Ruleset.PermittedWith [(Transition.other "myTransition" "a" "b", [])]
        (NewState "a") (NewState "b") [] =
      some (PermErr.noRules "a" "b") :=
  non_T_keys_unreachable [(Transition.other "myTransition" "a" "b", [])]
    "myTransition" [] (NewState "a") (NewState "b") []
    (List.mem_singleton.mpr rfl)
    (by
      rintro k gsk hk o2 e2
      rw [List.mem_singleton] at hk
      have hk1 : k = Transition.other "myTransition" "a" "b" :=
        congrArg Prod.fst hk
      subst hk1
      intro hcontra
      exact Transition.noConfusion hcontra)

/-- C9: `AddRule` invoked with zero guards leaves the ruleset entirely
unchanged — in particular no entry is created, so a transition "registered"
only that way is still structurally rejected by `Permitted`, not accepted
with an empty guard list. -/
theorem addRule_no_guards_noop (r : Ruleset) (t : Transition)
    (start goal : Fsm.State) (arrival : List (Option String))
    (h : r.lookup (Transition.T start.ID goal.ID) = none) :
    r.AddRule t [] = r ∧
    (r.AddRule t []).lookup t = r.lookup t ∧
    (r.AddRule t []).PermittedWith start goal arrival =
      some (PermErr.noRules start.ID goal.ID) := by
  have hr : r.AddRule t [] = r := rfl
  exact ⟨hr, by rw [hr], by
    rw [hr]
    simp [Ruleset.PermittedWith, h]⟩

/-- Witness for C9: adding `T{"a","b"}` with zero guards to the empty ruleset
creates nothing and the transition from `"a"` to `"b"` stays rejected. -/
theorem addRule_no_guards_noop_witness :
    Ruleset.AddRule [] (Transition.T "a" "b") [] = [] ∧
    (Ruleset.AddRule [] (Transition.T "a" "b") []).lookup (Transition.T "a" "b") =
      Ruleset.lookup [] (Transition.T "a" "b") ∧
    (Ruleset.AddRule [] (Transition.T "a" "b") []).PermittedWith
        (NewState "a") (NewState "b") [] =
      some (PermErr.noRules "a" "b") :=
  addRule_no_guards_noop [] (Transition.T "a" "b") (NewState "a") (NewState "b")
    [] rfl

/-- C10: `New` with no option functions — or with option functions that never
set `Rules` — yields a machine with a nil rules pointer, whose first
`Transition` call crashes (no error value is returned); with a non-nil rules
pointer, `Transition` always returns (never crashes) and reports rejection
only through its ordinary error result. -/
theorem nil_ruleset_crashes (opts : List (Machine → Machine)) (m : Machine)
    (r : Ruleset) (goal goal2 : Fsm.State)
    (arrival arrival2 : List (Option String))
    (hopts : ∀ f ∈ opts, ∀ mm : Machine, (f mm).Rules = mm.Rules)
    (hm : m.Rules = some r) :
    (New opts).Rules = none ∧
    (New opts).TransitionWith goal arrival = none ∧
    ∃ m2 res, m.TransitionWith goal2 arrival2 = some (m2, res) := by
  have hrules : (New opts).Rules = none := foldl_opts_rules opts _ hopts
  refine ⟨hrules, ?_, ?_⟩
  · simp [Machine.TransitionWith, hrules]
  · cases hp : r.PermittedWith m.State goal2 arrival2 with
    | none =>
      refine ⟨{ m with State := goal2 }, none, ?_⟩
      simp [Machine.TransitionWith, hm, hp]
    | some e =>
      refine ⟨m, some e, ?_⟩
      simp [Machine.TransitionWith, hm, hp]

/-- Witness for C10: `New []` has a nil rules pointer and its transition call
crashes, while a machine holding the empty ruleset returns an error value. -/
theorem nil_ruleset_crashes_witness :
    (New []).Rules = none ∧
    (New []).TransitionWith (NewState "b") [] = none ∧
    ∃ m2 res, Machine.TransitionWith ⟨some [], NewState "a"⟩ (NewState "b") [] =
      some (m2, res) :=
  nil_ruleset_crashes [] ⟨some [], NewState "a"⟩ [] (NewState "b") (NewState "b")
    [] [] (by simp) rfl

end Fsm
